import Mathlib

/-!
Shallow embedding of the rwlock redis client (src/client/redis.go and
src/rwinit.go).

The network is abstracted: each iteration of a retry loop consumes one
element of a list of send results supplied by the environment, and each
operation returns, besides its outcome, the trace of EvalSha invocations
it issued (so bounds on the number of attempts and the arguments passed
to the atomic procedure are visible).  The global state mutated by
initialization and recovery (the redis client, the retained options and
the cached script hash) is an explicit ClientState record; the redis
responses that DoInit and LoadLua observe are supplied by an InitEnv
record.  Inside a retry loop the script hash read by GetShaHashID is a
fixed parameter: the claims settled here do not depend on it changing
mid-loop.
-/

namespace RwLock

-- error strings, from src/client/redis.go
def NoScriptError : String := "NOSCRIPT No matching script. Please use EVAL."
def EofError : String := "EOF"

-- lock commands, from src/client/redis.go
def LockCmd : String := "LOCK"
def UnlockCmd : String := "UNLOCK"
def RLockCmd : String := "RLOCK"
def RUnlockCmd : String := "RUNLOCK"

/-- responseLock: the decoded reply of one atomic-procedure invocation. -/
structure responseLock where
  OpRet : Bool
  ErrMsg : String
  Debug : String
deriving DecidableEq, Repr

/-- responseLock.IsError from the source: true when ErrMsg is non-empty. -/
def responseLock.IsError (r : responseLock) : Bool :=
  if 0 < r.ErrMsg.length then true else false

/-- responseLock.Success from the source: the OpRet flag. -/
def responseLock.Success (r : responseLock) : Bool := r.OpRet

/-- responseLock.Error from the source: the ErrMsg field. -/
def responseLock.Error (r : responseLock) : String := r.ErrMsg

/-- Result of one sendLock call: either a transport or decode failure
carrying the message of the Go error (res is nil then), or a decoded
responseLock (err is nil then). -/
inductive SendResult where
  | err (e : String)
  | ok (res : responseLock)
deriving DecidableEq, Repr

/-- One EvalSha invocation as built by sendLock: script hash, the two
positional keys and the positional arguments. -/
structure EvalShaCall where
  sha : String
  keys : List String
  args : List String
deriving DecidableEq, Repr

/-- Argument construction of sendLock: keys are always [key, lockCmd];
for LOCK the args are [uniqID, itoa(expireTime)], for the other three
commands just [uniqID]. -/
def sendLockCall (shaHashID key uniqID lockCmd : String) (expireTime : Int) : EvalShaCall :=
  if lockCmd = LockCmd then
    { sha := shaHashID, keys := [key, lockCmd], args := [uniqID, toString expireTime] }
  else
    { sha := shaHashID, keys := [key, lockCmd], args := [uniqID] }

/-- Outcome of a public lock operation: a panic with its message, a
normal return, or exhaustion of the supplied environment results (the
real unbounded loop would keep going). -/
inductive CallOutcome where
  | panicked (msg : String)
  | returned
  | outOfResults
deriving DecidableEq, Repr

/-- Loop body of Lock: on a Go error, handle it and retry; on a decoded
result, panic if IsError, return if Success, otherwise retry. -/
def LockLoop (sha key uniqID : String) (expireTime : Int) :
    List SendResult → CallOutcome × List EvalShaCall
  | [] => (CallOutcome.outOfResults, [])
  | r :: rest =>
    let call := sendLockCall sha key uniqID LockCmd expireTime
    match r with
    | SendResult.err _ =>
      let next := LockLoop sha key uniqID expireTime rest
      (next.1, call :: next.2)
    | SendResult.ok res =>
      if res.IsError then (CallOutcome.panicked res.Error, [call])
      else if res.Success then (CallOutcome.returned, [call])
      else
        let next := LockLoop sha key uniqID expireTime rest
        (next.1, call :: next.2)

/-- Lock from the source: the guard is the literal dead test
len(key) < 0 of the Go code, then expireTime <= 0 is normalized to 5,
then the unbounded retry loop runs. -/
def Lock (sha key uniqID : String) (expireTime : Int) (results : List SendResult) :
    CallOutcome × List EvalShaCall :=
  if key.length < 0 then (CallOutcome.panicked "lock key is nil", [])
  else
    let expire := if expireTime ≤ 0 then 5 else expireTime
    LockLoop sha key uniqID expire results

/-- Loop body of Unlock: Success is tested first, then IsError, then the
counter i (i decrements, return when it reaches 0). -/
def UnlockLoop (sha key uniqID : String) :
    Int → List SendResult → CallOutcome × List EvalShaCall
  | _, [] => (CallOutcome.outOfResults, [])
  | i, r :: rest =>
    let call := sendLockCall sha key uniqID UnlockCmd 0
    match r with
    | SendResult.ok res =>
      if res.Success then (CallOutcome.returned, [call])
      else if res.IsError then (CallOutcome.panicked res.Error, [call])
      else if i - 1 ≤ 0 then (CallOutcome.returned, [call])
      else
        let next := UnlockLoop sha key uniqID (i - 1) rest
        (next.1, call :: next.2)
    | SendResult.err _ =>
      if i - 1 ≤ 0 then (CallOutcome.returned, [call])
      else
        let next := UnlockLoop sha key uniqID (i - 1) rest
        (next.1, call :: next.2)

/-- Unlock from the source: no key validation, bounded loop with i = 10. -/
def Unlock (sha key uniqID : String) (results : List SendResult) :
    CallOutcome × List EvalShaCall :=
  UnlockLoop sha key uniqID 10 results

/-- Loop body of RLock: return on Success, otherwise handle a Go error
if present and retry; a domain error in the result is never inspected. -/
def RLockLoop (sha key : String) :
    List SendResult → CallOutcome × List EvalShaCall
  | [] => (CallOutcome.outOfResults, [])
  | r :: rest =>
    let call := sendLockCall sha key "" RLockCmd 0
    match r with
    | SendResult.ok res =>
      if res.Success then (CallOutcome.returned, [call])
      else
        let next := RLockLoop sha key rest
        (next.1, call :: next.2)
    | SendResult.err _ =>
      let next := RLockLoop sha key rest
      (next.1, call :: next.2)

/-- RLock from the source: unbounded retry, empty uniqID. -/
def RLock (sha key : String) (results : List SendResult) :
    CallOutcome × List EvalShaCall :=
  RLockLoop sha key results

/-- Loop body of RUnlock: return on Success, otherwise decrement i and
return at 0; IsError is never inspected. -/
def RUnlockLoop (sha key : String) :
    Int → List SendResult → CallOutcome × List EvalShaCall
  | _, [] => (CallOutcome.outOfResults, [])
  | i, r :: rest =>
    let call := sendLockCall sha key "" RUnlockCmd 0
    match r with
    | SendResult.ok res =>
      if res.Success then (CallOutcome.returned, [call])
      else if i - 1 ≤ 0 then (CallOutcome.returned, [call])
      else
        let next := RUnlockLoop sha key (i - 1) rest
        (next.1, call :: next.2)
    | SendResult.err _ =>
      if i - 1 ≤ 0 then (CallOutcome.returned, [call])
      else
        let next := RUnlockLoop sha key (i - 1) rest
        (next.1, call :: next.2)

/-- RUnlock from the source: panics on len(key) <= 0, then bounded loop
with i = 10. -/
def RUnlock (sha key : String) (results : List SendResult) :
    CallOutcome × List EvalShaCall :=
  if key.length ≤ 0 then (CallOutcome.panicked "runlock nil key", [])
  else RUnlockLoop sha key 10 results

/-- quietAttempt: an attempt result that neither succeeds nor carries a
domain error (a Go error, or a decoded result with OpRet false and an
empty ErrMsg). -/
def quietAttempt (x : SendResult) : Bool :=
  match x with
  | SendResult.err _ => true
  | SendResult.ok res => !res.Success && !res.IsError

/-- OptObj: the dynamic shape of the optObj interface value passed to
DoInit.  The Nat payload distinguishes distinct option values; nilOpt is
the nil interface (the zero value of the retained opts global). -/
inductive OptObj where
  | options (id : Nat)
  | failoverOptions (id : Nat)
  | clusterOptions (id : Nat)
  | nilOpt
  | other (id : Nat)
deriving DecidableEq, Repr

/-- ClientState: the package-level mutable state of the client: the
redis client (abstracted as the options it was built from, none while
nil), the retained opts interface value, and the cached script hash. -/
structure ClientState where
  redis : Option OptObj
  opts : OptObj
  shaHashID : String
deriving DecidableEq, Repr

/-- GetShaHashID from the source. -/
def GetShaHashID (st : ClientState) : String := st.shaHashID

/-- SetShaHasID from the source (name kept with its typo). -/
def SetShaHasID (str : String) (st : ClientState) : ClientState :=
  { st with shaHashID := str }

/-- InitEnv: the store responses observed during one initialization
attempt: the Ping result and the ScriptLoad result. -/
structure InitEnv where
  ping : Except String Unit
  scriptLoad : Except String String

/-- LoadLua from the source: on ScriptLoad success store the hash via
SetShaHasID and return no error; on failure return the error, state
untouched. -/
def LoadLua (scriptLoadRes : Except String String) (st : ClientState) :
    ClientState × Option String :=
  match scriptLoadRes with
  | Except.error e => (st, some e)
  | Except.ok hashID => (SetShaHasID hashID st, none)

/-- InitAction: the externally visible steps DoInit performs, in order. -/
inductive InitAction where
  | newClient
  | newFailoverClient
  | newClusterClient
  | ping
  | scriptLoad
deriving DecidableEq, Repr

/-- Shared body of the three supported branches of DoInit: build the
client, ping, and only on ping success retain opts and run LoadLua. -/
def doInitSupported (env : InitEnv) (optObj : OptObj) (mk : InitAction) (st : ClientState) :
    ClientState × Option String × List InitAction :=
  let st1 : ClientState := { st with redis := some optObj }
  match env.ping with
  | Except.error e => (st1, some e, [mk, InitAction.ping])
  | Except.ok _ =>
    let st2 : ClientState := { st1 with opts := optObj }
    let r := LoadLua env.scriptLoad st2
    (r.1, r.2, [mk, InitAction.ping, InitAction.scriptLoad])

/-- DoInit from the source: switch on the dynamic type of optObj; the
three supported shapes build a client and proceed, anything else returns
the unsupported-options error at once. -/
def DoInit (env : InitEnv) (optObj : OptObj) (st : ClientState) :
    ClientState × Option String × List InitAction :=
  match optObj with
  | OptObj.options _ => doInitSupported env optObj InitAction.newClient st
  | OptObj.failoverOptions _ => doInitSupported env optObj InitAction.newFailoverClient st
  | OptObj.clusterOptions _ => doInitSupported env optObj InitAction.newClusterClient st
  | OptObj.nilOpt => (st, some "unsupported options", [])
  | OptObj.other _ => (st, some "unsupported options", [])

/-- Init from src/rwinit.go: run DoInit and panic on any error. -/
def Init (env : InitEnv) (optObj : OptObj) (st : ClientState) :
    ClientState × Option String :=
  let r := DoInit env optObj st
  match r.2.1 with
  | some _ => (r.1, some "redis client init ")
  | none => (r.1, none)

/-- handleEofError from the source: retry DoInit once on the retained opts. -/
def handleEofError (env : InitEnv) (st : ClientState) :
    ClientState × Option String × List InitAction :=
  DoInit env st.opts st

/-- handleNoScriptError from the source: reload the Lua script. -/
def handleNoScriptError (env : InitEnv) (st : ClientState) :
    ClientState × Option String :=
  LoadLua env.scriptLoad st

/-- handleError from the source: nil error gives false; the EOF message
triggers handleEofError, the NOSCRIPT message triggers
handleNoScriptError, each reporting true exactly when recovery
succeeded; any other message gives false with no action. -/
def handleError (env : InitEnv) (e : Option String) (st : ClientState) :
    Bool × ClientState :=
  match e with
  | none => (false, st)
  | some msg =>
    if msg = EofError then
      let r := handleEofError env st
      match r.2.1 with
      | some _ => (false, r.1)
      | none => (true, r.1)
    else if msg = NoScriptError then
      let r := handleNoScriptError env st
      match r.2 with
      | some _ => (false, r.1)
      | none => (true, r.1)
    else (false, st)

end RwLock
namespace RwLock

lemma LockLoop_trace_mem (sha key uniqID : String) (ex : Int) :
    ∀ (results : List SendResult), ∀ c ∈ (LockLoop sha key uniqID ex results).2,
      c = sendLockCall sha key uniqID LockCmd ex := by
  intro results
  induction results with
  | nil => intro c hc; simp [LockLoop] at hc
  | cons r rest ih =>
    intro c hc
    cases r with
    | err e =>
      simp only [LockLoop, List.mem_cons] at hc
      rcases hc with hc | hc
      · exact hc
      · exact ih c hc
    | ok res =>
      simp only [LockLoop] at hc
      by_cases hE : res.IsError
      · simp [hE] at hc
        exact hc
      · by_cases hS : res.Success
        · simp [hE, hS] at hc
          exact hc
        · simp [hE, hS] at hc
          rcases hc with hc | hc
          · exact hc
          · exact ih c hc

lemma UnlockLoop_len_le (sha key uniqID : String) :
    ∀ (results : List SendResult) (i : Int), 1 ≤ i →
      (UnlockLoop sha key uniqID i results).2.length ≤ i.toNat := by
  intro results
  induction results with
  | nil => intro i hi; simp [UnlockLoop]
  | cons r rest ih =>
    intro i hi
    cases r with
    | ok res =>
      simp only [UnlockLoop]
      by_cases hS : res.Success
      · simp [hS]; omega
      · by_cases hE : res.IsError
        · simp [hS, hE]; omega
        · by_cases hi1 : i - 1 ≤ 0
          · simp [hS, hE, hi1]; omega
          · simp [hS, hE, hi1]
            have := ih (i - 1) (by omega)
            omega
    | err e =>
      simp only [UnlockLoop]
      by_cases hi1 : i - 1 ≤ 0
      · simp [hi1]; omega
      · simp [hi1]
        have := ih (i - 1) (by omega)
        omega

lemma RUnlockLoop_len_le (sha key : String) :
    ∀ (results : List SendResult) (i : Int), 1 ≤ i →
      (RUnlockLoop sha key i results).2.length ≤ i.toNat := by
  intro results
  induction results with
  | nil => intro i hi; simp [RUnlockLoop]
  | cons r rest ih =>
    intro i hi
    cases r with
    | ok res =>
      simp only [RUnlockLoop]
      by_cases hS : res.Success
      · simp [hS]; omega
      · by_cases hi1 : i - 1 ≤ 0
        · simp [hS, hi1]; omega
        · simp [hS, hi1]
          have := ih (i - 1) (by omega)
          omega
    | err e =>
      simp only [RUnlockLoop]
      by_cases hi1 : i - 1 ≤ 0
      · simp [hi1]; omega
      · simp [hi1]
        have := ih (i - 1) (by omega)
        omega


lemma UnlockLoop_quiet_exhaust (sha key uniqID : String) :
    ∀ (results : List SendResult) (i : Int), 1 ≤ i →
      (∀ x ∈ results, quietAttempt x = true) → i.toNat ≤ results.length →
      (UnlockLoop sha key uniqID i results).1 = CallOutcome.returned ∧
      (UnlockLoop sha key uniqID i results).2.length = i.toNat := by
  intro results
  induction results with
  | nil => intro i hi hq hlen; simp at hlen; omega
  | cons r rest ih =>
    intro i hi hq hlen
    have hqr : quietAttempt r = true := hq r (by simp)
    have hqrest : ∀ x ∈ rest, quietAttempt x = true := fun x hx => hq x (by simp [hx])
    simp only [List.length_cons] at hlen
    cases r with
    | ok res =>
      simp only [quietAttempt, Bool.and_eq_true, Bool.not_eq_true'] at hqr
      by_cases hi1 : i - 1 ≤ 0
      · have hone : i = 1 := by omega
        subst hone
        simp [UnlockLoop, hqr.1, hqr.2]
      · simp only [UnlockLoop]
        simp [hqr.1, hqr.2, hi1]
        have h2 := ih (i - 1) (by omega) hqrest (by omega)
        exact ⟨h2.1, by omega⟩
    | err e =>
      by_cases hi1 : i - 1 ≤ 0
      · have hone : i = 1 := by omega
        subst hone
        simp [UnlockLoop]
      · simp only [UnlockLoop]
        simp [hi1]
        have h2 := ih (i - 1) (by omega) hqrest (by omega)
        exact ⟨h2.1, by omega⟩

lemma RUnlockLoop_quiet_exhaust (sha key : String) :
    ∀ (results : List SendResult) (i : Int), 1 ≤ i →
      (∀ x ∈ results, quietAttempt x = true) → i.toNat ≤ results.length →
      (RUnlockLoop sha key i results).1 = CallOutcome.returned ∧
      (RUnlockLoop sha key i results).2.length = i.toNat := by
  intro results
  induction results with
  | nil => intro i hi hq hlen; simp at hlen; omega
  | cons r rest ih =>
    intro i hi hq hlen
    have hqr : quietAttempt r = true := hq r (by simp)
    have hqrest : ∀ x ∈ rest, quietAttempt x = true := fun x hx => hq x (by simp [hx])
    simp only [List.length_cons] at hlen
    cases r with
    | ok res =>
      simp only [quietAttempt, Bool.and_eq_true, Bool.not_eq_true'] at hqr
      by_cases hi1 : i - 1 ≤ 0
      · have hone : i = 1 := by omega
        subst hone
        simp [RUnlockLoop, hqr.1]
      · simp only [RUnlockLoop]
        simp [hqr.1, hi1]
        have h2 := ih (i - 1) (by omega) hqrest (by omega)
        exact ⟨h2.1, by omega⟩
    | err e =>
      by_cases hi1 : i - 1 ≤ 0
      · have hone : i = 1 := by omega
        subst hone
        simp [RUnlockLoop]
      · simp only [RUnlockLoop]
        simp [hi1]
        have h2 := ih (i - 1) (by omega) hqrest (by omega)
        exact ⟨h2.1, by omega⟩

lemma RLockLoop_ne_panicked (sha key : String) :
    ∀ (results : List SendResult) (m : String),
      (RLockLoop sha key results).1 ≠ CallOutcome.panicked m := by
  intro results
  induction results with
  | nil => intro m; simp [RLockLoop]
  | cons r rest ih =>
    intro m
    cases r with
    | ok res =>
      simp only [RLockLoop]
      by_cases hS : res.Success
      · simp [hS]
      · simp [hS]; exact ih m
    | err e =>
      simp only [RLockLoop]
      exact ih m

lemma RUnlockLoop_ne_panicked (sha key : String) :
    ∀ (results : List SendResult) (i : Int) (m : String),
      (RUnlockLoop sha key i results).1 ≠ CallOutcome.panicked m := by
  intro results
  induction results with
  | nil => intro i m; simp [RUnlockLoop]
  | cons r rest ih =>
    intro i m
    cases r with
    | ok res =>
      simp only [RUnlockLoop]
      by_cases hS : res.Success
      · simp [hS]
      · by_cases hi1 : i - 1 ≤ 0
        · simp [hS, hi1]
        · simp [hS, hi1]; exact ih (i - 1) m
    | err e =>
      simp only [RUnlockLoop]
      by_cases hi1 : i - 1 ≤ 0
      · simp [hi1]
      · simp [hi1]; exact ih (i - 1) m

lemma UnlockLoop_trace_head (sha key uniqID : String) (i : Int) (r : SendResult)
    (rest : List SendResult) :
    (UnlockLoop sha key uniqID i (r :: rest)).2.head? =
      some (sendLockCall sha key uniqID UnlockCmd 0) := by
  cases r with
  | ok res =>
    simp only [UnlockLoop]
    by_cases hS : res.Success
    · simp [hS]
    · by_cases hE : res.IsError
      · simp [hS, hE]
      · by_cases hi1 : i - 1 ≤ 0
        · simp [hS, hE, hi1]
        · simp [hS, hE, hi1]
  | err e =>
    simp only [UnlockLoop]
    by_cases hi1 : i - 1 ≤ 0
    · simp [hi1]
    · simp [hi1]


/-- Claim C1 (code bug): the guard of Lock is the unsatisfiable test
len(key) < 0, so Lock with an empty key does not panic: it proceeds to
issue the LOCK attempt and returns on success, while RUnlock with an
empty key does panic as the spec says. -/
theorem C1_lock_empty_key_not_fatal :
    ¬ (("" : String).length < 0) ∧
    (Lock "s" "" "u" 5 [SendResult.ok ⟨true, "", ""⟩]).1 = CallOutcome.returned ∧
    (Lock "s" "" "u" 5 [SendResult.ok ⟨true, "", ""⟩]).2 =
      [sendLockCall "s" "" "u" LockCmd 5] ∧
    (RUnlock "s" "" []).1 = CallOutcome.panicked "runlock nil key" := by
  decide

/-- Claim C2 counterexample: a decoded result with OpRet true and a
non-empty ErrMsg is a domain error by IsError, yet Unlock returns
normally instead of aborting. -/
theorem C2_counterexample :
    responseLock.IsError ⟨true, "boom", ""⟩ = true ∧
    (Unlock "s" "k" "u" [SendResult.ok ⟨true, "boom", ""⟩]).1 =
      CallOutcome.returned := by
  decide

/-- Claim C2 (amended): in Lock a domain error takes precedence and the
call panics with the error message; in Unlock the succeeded flag is
checked first, so a succeeded result returns normally whatever ErrMsg
holds, and a domain error aborts only when the succeeded flag is false. -/
theorem C2_error_precedence (sha key uniqID : String) (e : Int)
    (res : responseLock) (rest : List SendResult) :
    (res.IsError = true →
      (Lock sha key uniqID e (SendResult.ok res :: rest)).1 =
        CallOutcome.panicked res.ErrMsg) ∧
    (res.OpRet = true →
      (Unlock sha key uniqID (SendResult.ok res :: rest)).1 =
        CallOutcome.returned) ∧
    (res.OpRet = false → res.IsError = true →
      (Unlock sha key uniqID (SendResult.ok res :: rest)).1 =
        CallOutcome.panicked res.ErrMsg) := by
  refine ⟨?_, ?_, ?_⟩
  · intro hE
    simp [Lock, LockLoop, hE, responseLock.Error]
  · intro hS
    simp [Unlock, UnlockLoop, responseLock.Success, hS]
  · intro hS hE
    simp [Unlock, UnlockLoop, responseLock.Success, responseLock.Error, hS, hE]

/-- Witness for C2_error_precedence at concrete inputs. -/
theorem C2_error_precedence_witness :
    (Lock "s" "k" "u" 5 [SendResult.ok ⟨false, "boom", ""⟩]).1 =
      CallOutcome.panicked "boom" ∧
    (Unlock "s" "k" "u" [SendResult.ok ⟨true, "boom", ""⟩]).1 =
      CallOutcome.returned ∧
    (Unlock "s" "k" "u" [SendResult.ok ⟨false, "boom", ""⟩]).1 =
      CallOutcome.panicked "boom" := by
  refine ⟨?_, ?_, ?_⟩
  · exact (C2_error_precedence "s" "k" "u" 5 ⟨false, "boom", ""⟩ []).1 (by decide)
  · exact (C2_error_precedence "s" "k" "u" 5 ⟨true, "boom", ""⟩ []).2.1 (by decide)
  · exact (C2_error_precedence "s" "k" "u" 5 ⟨false, "boom", ""⟩ []).2.2 (by decide) (by decide)

/-- Claim C3 counterexample: ten consecutive domain-error results make
RUnlock give up and return normally, never panicking, so a domain error
does not abort release-read. -/
theorem C3_counterexample :
    responseLock.IsError ⟨false, "boom", ""⟩ = true ∧
    (RUnlock "s" "k" (List.replicate 10 (SendResult.ok ⟨false, "boom", ""⟩))).1 =
      CallOutcome.returned ∧
    (RUnlock "s" "k" (List.replicate 10 (SendResult.ok ⟨false, "boom", ""⟩))).2.length =
      10 := by
  decide

/-- Claim C3 (amended): with a non-empty key RUnlock never panics on any
environment, and a domain-error result is treated like any failed
attempt: the loop records the attempt and continues with the counter
decremented. -/
theorem C3_runlock_ignores_domain_error (sha key : String) (res : responseLock)
    (rest results : List SendResult) :
    (0 < key.length → ∀ m, (RUnlock sha key results).1 ≠ CallOutcome.panicked m) ∧
    (0 < key.length → res.OpRet = false →
      RUnlock sha key (SendResult.ok res :: rest) =
        ((RUnlockLoop sha key 9 rest).1,
          sendLockCall sha key "" RUnlockCmd 0 :: (RUnlockLoop sha key 9 rest).2)) := by
  constructor
  · intro hk m
    have hk2 : ¬ (key.length ≤ 0) := by omega
    simp [RUnlock, hk2]
    exact RUnlockLoop_ne_panicked sha key results 10 m
  · intro hk hS
    have hk2 : ¬ (key.length ≤ 0) := by omega
    have h91 : ¬ ((10 : Int) - 1 ≤ 0) := by norm_num
    simp [RUnlock, hk2, RUnlockLoop, responseLock.Success, hS, h91]

/-- Witness for C3_runlock_ignores_domain_error at concrete inputs. -/
theorem C3_runlock_ignores_domain_error_witness :
    (∀ m, (RUnlock "s" "k" [SendResult.err "x"]).1 ≠ CallOutcome.panicked m) ∧
    RUnlock "s" "k" [SendResult.ok ⟨false, "boom", ""⟩] =
      ((RUnlockLoop "s" "k" 9 []).1,
        sendLockCall "s" "k" "" RUnlockCmd 0 :: (RUnlockLoop "s" "k" 9 []).2) := by
  constructor
  · exact (C3_runlock_ignores_domain_error "s" "k" ⟨false, "boom", ""⟩ [] [SendResult.err "x"]).1 (by decide)
  · exact (C3_runlock_ignores_domain_error "s" "k" ⟨false, "boom", ""⟩ [] []).2 (by decide) (by decide)


/-- Claim C4: handleError dispatches on the literal error message: nil
gives no action; EOF triggers a full DoInit on the retained opts and on
full success installs the freshly loaded script hash; NOSCRIPT triggers
only LoadLua, which touches neither the client nor the retained opts;
any other message is left alone; and a failed recovery reports false so
the retry logic of the caller is unchanged. -/
theorem C4_handleError_classifier (env : InitEnv) (st : ClientState)
    (msg e h : String) (n : Nat) :
    handleError env none st = (false, st) ∧
    handleError env (some EofError) st =
      ((DoInit env st.opts st).2.1.isNone, (DoInit env st.opts st).1) ∧
    handleError env (some NoScriptError) st =
      ((LoadLua env.scriptLoad st).2.isNone, (LoadLua env.scriptLoad st).1) ∧
    ((LoadLua env.scriptLoad st).1.redis = st.redis ∧
      (LoadLua env.scriptLoad st).1.opts = st.opts) ∧
    (env.ping = Except.ok () → env.scriptLoad = Except.ok h →
      st.opts = OptObj.options n →
      handleError env (some EofError) st =
        (true, { st with redis := some (OptObj.options n),
                         opts := OptObj.options n, shaHashID := h })) ∧
    (env.scriptLoad = Except.error e →
      handleError env (some NoScriptError) st = (false, st)) ∧
    (msg ≠ EofError → msg ≠ NoScriptError →
      handleError env (some msg) st = (false, st)) := by
  refine ⟨rfl, ?_, ?_, ?_, ?_, ?_, ?_⟩
  · simp only [handleError, handleEofError, if_pos rfl]
    rcases hD : (DoInit env st.opts st).2.1 with _ | e1
    · simp [hD]
    · simp [hD]
  · have hne : ¬ (NoScriptError = EofError) := by decide
    simp only [handleError, handleNoScriptError, if_neg hne, if_pos rfl]
    rcases hL : (LoadLua env.scriptLoad st).2 with _ | e1
    · simp [hL]
    · simp [hL]
  · rcases hL : env.scriptLoad with e1 | h1
    · simp [LoadLua, hL]
    · simp [LoadLua, hL, SetShaHasID]
  · intro hp hl ho
    simp only [handleError, handleEofError, if_pos rfl, ho]
    simp [DoInit, doInitSupported, hp, hl, LoadLua, SetShaHasID]
  · intro hl
    have hne : ¬ (NoScriptError = EofError) := by decide
    simp only [handleError, handleNoScriptError, if_neg hne, if_pos rfl]
    simp [LoadLua, hl]
  · intro h1 h2
    simp [handleError, h1, h2]

/-- Witness for C4_handleError_classifier at concrete inputs. -/
theorem C4_handleError_classifier_witness :
    handleError ⟨Except.ok (), Except.ok "h1"⟩ (some EofError)
        ⟨none, OptObj.options 3, "old"⟩ =
      (true, ⟨some (OptObj.options 3), OptObj.options 3, "h1"⟩) ∧
    handleError ⟨Except.ok (), Except.error "down"⟩ (some NoScriptError)
        ⟨none, OptObj.options 3, "old"⟩ =
      (false, ⟨none, OptObj.options 3, "old"⟩) ∧
    handleError ⟨Except.ok (), Except.ok "h1"⟩ (some "other")
        ⟨none, OptObj.options 3, "old"⟩ =
      (false, ⟨none, OptObj.options 3, "old"⟩) := by
  refine ⟨?_, ?_, ?_⟩
  · exact (C4_handleError_classifier ⟨Except.ok (), Except.ok "h1"⟩
      ⟨none, OptObj.options 3, "old"⟩ "other" "down" "h1" 3).2.2.2.2.1
      rfl rfl rfl
  · exact (C4_handleError_classifier ⟨Except.ok (), Except.error "down"⟩
      ⟨none, OptObj.options 3, "old"⟩ "other" "down" "h1" 3).2.2.2.2.2.1 rfl
  · exact (C4_handleError_classifier ⟨Except.ok (), Except.ok "h1"⟩
      ⟨none, OptObj.options 3, "old"⟩ "other" "down" "h1" 3).2.2.2.2.2.2
      (by decide) (by decide)

/-- Claim C5: Unlock and RUnlock issue at most 10 attempts; when every
supplied result is a quiet failure and at least 10 are available, both
calls make exactly 10 attempts and return normally without signaling
failure. -/
theorem C5_release_bounded (sha key uniqID : String) (results : List SendResult) :
    (Unlock sha key uniqID results).2.length ≤ 10 ∧
    (RUnlock sha key results).2.length ≤ 10 ∧
    ((∀ x ∈ results, quietAttempt x = true) → 10 ≤ results.length →
      (Unlock sha key uniqID results).1 = CallOutcome.returned ∧
      (Unlock sha key uniqID results).2.length = 10 ∧
      (0 < key.length →
        (RUnlock sha key results).1 = CallOutcome.returned ∧
        (RUnlock sha key results).2.length = 10)) := by
  have h10 : ((10 : Int)).toNat = 10 := rfl
  refine ⟨?_, ?_, ?_⟩
  · have := UnlockLoop_len_le sha key uniqID results 10 (by norm_num)
    simpa [Unlock, h10] using this
  · by_cases hk : key.length ≤ 0
    · simp [RUnlock, hk]
    · have := RUnlockLoop_len_le sha key results 10 (by norm_num)
      simpa [RUnlock, hk, h10] using this
  · intro hq hlen
    have hu := UnlockLoop_quiet_exhaust sha key uniqID results 10 (by norm_num) hq
      (by omega)
    refine ⟨by simpa [Unlock] using hu.1, by simpa [Unlock, h10] using hu.2, ?_⟩
    intro hk
    have hk2 : ¬ (key.length ≤ 0) := by omega
    have hr := RUnlockLoop_quiet_exhaust sha key results 10 (by norm_num) hq
      (by omega)
    exact ⟨by simpa [RUnlock, hk2] using hr.1, by simpa [RUnlock, hk2, h10] using hr.2⟩

/-- Witness for C5_release_bounded at concrete inputs. -/
theorem C5_release_bounded_witness :
    (Unlock "s" "k" "u" (List.replicate 10 (SendResult.err "x"))).1 =
      CallOutcome.returned ∧
    (Unlock "s" "k" "u" (List.replicate 10 (SendResult.err "x"))).2.length = 10 ∧
    (RUnlock "s" "k" (List.replicate 10 (SendResult.err "x"))).1 =
      CallOutcome.returned ∧
    (RUnlock "s" "k" (List.replicate 10 (SendResult.err "x"))).2.length = 10 := by
  have h := (C5_release_bounded "s" "k" "u"
    (List.replicate 10 (SendResult.err "x"))).2.2 (by decide) (by decide)
  exact ⟨h.1, h.2.1, (h.2.2 (by decide)).1, (h.2.2 (by decide)).2⟩

/-- Claim C6: a non-positive lease duration is replaced by 5 before the
first attempt and a positive one is passed to every EvalSha invocation
unchanged, as the second positional argument after the holder identity. -/
theorem C6_lease_normalization (sha key uniqID : String) (e : Int)
    (results : List SendResult) :
    (0 < e → ∀ c ∈ (Lock sha key uniqID e results).2,
      c.args = [uniqID, toString e]) ∧
    (e ≤ 0 → ∀ c ∈ (Lock sha key uniqID e results).2,
      c.args = [uniqID, "5"]) := by
  constructor
  · intro he c hc
    have hpos : ¬ (e ≤ 0) := by omega
    simp only [Lock, if_neg (by omega : ¬ (key.length < 0)), if_neg hpos] at hc
    have := LockLoop_trace_mem sha key uniqID e results c hc
    subst this
    simp [sendLockCall]
  · intro he c hc
    simp only [Lock, if_neg (by omega : ¬ (key.length < 0)), if_pos he] at hc
    have := LockLoop_trace_mem sha key uniqID 5 results c hc
    subst this
    simp [sendLockCall, show toString (5 : Int) = "5" from by decide]

/-- Witness for C6_lease_normalization at concrete inputs. -/
theorem C6_lease_normalization_witness :
    (∀ c ∈ (Lock "s" "k" "u" 7 [SendResult.err "x"]).2,
      c.args = ["u", toString (7 : Int)]) ∧
    (∀ c ∈ (Lock "s" "k" "u" (-2) [SendResult.err "x"]).2,
      c.args = ["u", "5"]) := by
  constructor
  · exact (C6_lease_normalization "s" "k" "u" 7 [SendResult.err "x"]).1 (by decide)
  · exact (C6_lease_normalization "s" "k" "u" (-2) [SendResult.err "x"]).2 (by decide)


/-- Claim C7: DoInit rejects any option value outside the three
supported shapes with the unsupported-options error and no action,
builds a client for each of the three supported shapes, performs the
script load only when the ping succeeded, and every DoInit error makes
Init panic while a clean DoInit makes Init return normally. -/
theorem C7_doinit_shape_gate (env : InitEnv) (st : ClientState)
    (optObj : OptObj) (n : Nat) :
    DoInit env (OptObj.other n) st = (st, some "unsupported options", []) ∧
    DoInit env OptObj.nilOpt st = (st, some "unsupported options", []) ∧
    (DoInit env (OptObj.options n) st).1.redis = some (OptObj.options n) ∧
    (DoInit env (OptObj.failoverOptions n) st).1.redis =
      some (OptObj.failoverOptions n) ∧
    (DoInit env (OptObj.clusterOptions n) st).1.redis =
      some (OptObj.clusterOptions n) ∧
    (InitAction.scriptLoad ∈ (DoInit env optObj st).2.2 →
      env.ping = Except.ok ()) ∧
    ((DoInit env optObj st).2.1.isSome = true →
      Init env optObj st = ((DoInit env optObj st).1, some "redis client init ")) ∧
    ((DoInit env optObj st).2.1 = none →
      Init env optObj st = ((DoInit env optObj st).1, none)) := by
  have hredis : ∀ (o : OptObj) (mk : InitAction),
      (doInitSupported env o mk st).1.redis = some o := by
    intro o mk
    rcases hp : env.ping with ep | u
    · simp [doInitSupported, hp]
    · rcases hl : env.scriptLoad with el | hh
      · simp [doInitSupported, hp, hl, LoadLua]
      · simp [doInitSupported, hp, hl, LoadLua, SetShaHasID]
  refine ⟨rfl, rfl, hredis _ _, hredis _ _, hredis _ _, ?_, ?_, ?_⟩
  · intro hmem
    have hsupp : ∀ (o : OptObj) (mk : InitAction), mk ≠ InitAction.scriptLoad →
        InitAction.scriptLoad ∈ (doInitSupported env o mk st).2.2 →
        env.ping = Except.ok () := by
      intro o mk hmk hm
      rcases hp : env.ping with ep | u
      · rw [doInitSupported, hp] at hm
        simp at hm
        exact absurd hm.symm hmk
      · cases u
        rfl
    cases optObj with
    | options m => exact hsupp _ _ (by decide) hmem
    | failoverOptions m => exact hsupp _ _ (by decide) hmem
    | clusterOptions m => exact hsupp _ _ (by decide) hmem
    | nilOpt => simp [DoInit] at hmem
    | other m => simp [DoInit] at hmem
  · intro hs
    rcases hD : (DoInit env optObj st).2.1 with _ | e1
    · rw [hD] at hs; simp at hs
    · simp [Init, hD]
  · intro hn
    simp [Init, hn]

/-- Witness for C7_doinit_shape_gate at concrete inputs. -/
theorem C7_doinit_shape_gate_witness :
    (⟨Except.ok (), Except.ok "h1"⟩ : InitEnv).ping = Except.ok () ∧
    Init ⟨Except.error "down", Except.ok "h1"⟩ (OptObj.options 0)
        ⟨none, OptObj.nilOpt, ""⟩ =
      ((DoInit ⟨Except.error "down", Except.ok "h1"⟩ (OptObj.options 0)
          ⟨none, OptObj.nilOpt, ""⟩).1, some "redis client init ") ∧
    Init ⟨Except.ok (), Except.ok "h1"⟩ (OptObj.options 0)
        ⟨none, OptObj.nilOpt, ""⟩ =
      ((DoInit ⟨Except.ok (), Except.ok "h1"⟩ (OptObj.options 0)
          ⟨none, OptObj.nilOpt, ""⟩).1, none) := by
  refine ⟨?_, ?_, ?_⟩
  · exact (C7_doinit_shape_gate ⟨Except.ok (), Except.ok "h1"⟩
      ⟨none, OptObj.nilOpt, ""⟩ (OptObj.options 0) 0).2.2.2.2.2.1 (by decide)
  · exact (C7_doinit_shape_gate ⟨Except.error "down", Except.ok "h1"⟩
      ⟨none, OptObj.nilOpt, ""⟩ (OptObj.options 0) 0).2.2.2.2.2.2.1 (by decide)
  · exact (C7_doinit_shape_gate ⟨Except.ok (), Except.ok "h1"⟩
      ⟨none, OptObj.nilOpt, ""⟩ (OptObj.options 0) 0).2.2.2.2.2.2.2 (by decide)

/-- Claim C8 counterexample: a decoded result with OpRet true and a
non-empty ErrMsg is a domain error by IsError, yet RLock returns
success on that first attempt instead of backing off and retrying. -/
theorem C8_counterexample :
    responseLock.IsError ⟨true, "boom", ""⟩ = true ∧
    (RLock "s" "k" [SendResult.ok ⟨true, "boom", ""⟩]).1 =
      CallOutcome.returned ∧
    (RLock "s" "k" [SendResult.ok ⟨true, "boom", ""⟩]).2.length = 1 := by
  decide

/-- Claim C8 (amended): RLock checks the succeeded flag first: a result
with the succeeded flag set returns success immediately whatever ErrMsg
holds; a domain-error result with the succeeded flag false is treated
as transient, the loop recording the attempt and retrying as for any
failed attempt; and no environment can make RLock panic. -/
theorem C8_rlock_success_flag_first (sha key : String) (res : responseLock)
    (rest results : List SendResult) :
    (res.OpRet = true →
      (RLock sha key (SendResult.ok res :: rest)).1 = CallOutcome.returned) ∧
    (res.OpRet = false →
      (RLock sha key (SendResult.ok res :: rest)).1 = (RLock sha key rest).1 ∧
      (RLock sha key (SendResult.ok res :: rest)).2 =
        sendLockCall sha key "" RLockCmd 0 :: (RLock sha key rest).2) ∧
    (∀ m, (RLock sha key results).1 ≠ CallOutcome.panicked m) := by
  refine ⟨?_, ?_, ?_⟩
  · intro hS
    have hS2 : res.Success = true := hS
    simp [RLock, RLockLoop, hS2]
  · intro hS
    have hS2 : res.Success = false := hS
    constructor
    · simp [RLock, RLockLoop, hS2]
    · simp [RLock, RLockLoop, hS2]
  · intro m
    exact RLockLoop_ne_panicked sha key results m

/-- Witness for C8_rlock_success_flag_first at concrete inputs. -/
theorem C8_rlock_success_flag_first_witness :
    (RLock "s" "k" [SendResult.ok ⟨true, "boom", ""⟩]).1 =
      CallOutcome.returned ∧
    (RLock "s" "k" [SendResult.ok ⟨false, "boom", ""⟩]).1 =
      (RLock "s" "k" []).1 ∧
    (RLock "s" "k" [SendResult.ok ⟨false, "boom", ""⟩]).2 =
      sendLockCall "s" "k" "" RLockCmd 0 :: (RLock "s" "k" []).2 := by
  refine ⟨?_, ?_⟩
  · exact (C8_rlock_success_flag_first "s" "k" ⟨true, "boom", ""⟩ [] []).1 (by decide)
  · exact (C8_rlock_success_flag_first "s" "k" ⟨false, "boom", ""⟩ [] []).2.1 (by decide)

/-- Claim C9: Unlock has no key validation: with an empty key it goes
straight into its bounded retry loop, actually issues the first UNLOCK
attempt, and stays within the 10-attempt bound. -/
theorem C9_unlock_no_key_validation (sha uniqID : String) (r : SendResult)
    (rest : List SendResult) :
    Unlock sha "" uniqID (r :: rest) = UnlockLoop sha "" uniqID 10 (r :: rest) ∧
    (Unlock sha "" uniqID (r :: rest)).2.head? =
      some (sendLockCall sha "" uniqID UnlockCmd 0) ∧
    (Unlock sha "" uniqID (r :: rest)).2.length ≤ 10 := by
  refine ⟨rfl, ?_, ?_⟩
  · exact UnlockLoop_trace_head sha "" uniqID 10 r rest
  · have := UnlockLoop_len_le sha "" uniqID (r :: rest) 10 (by norm_num)
    simpa [Unlock] using this

/-- Claim C10 counterexample: with a working ping and a failing script
load, DoInit returns an error yet the retained opts have already been
overwritten with the new option value. -/
theorem C10_counterexample :
    (DoInit ⟨Except.ok (), Except.error "load failed"⟩ (OptObj.options 7)
        ⟨none, OptObj.nilOpt, ""⟩).2.1 = some "load failed" ∧
    (DoInit ⟨Except.ok (), Except.error "load failed"⟩ (OptObj.options 7)
        ⟨none, OptObj.nilOpt, ""⟩).1.opts ≠ OptObj.nilOpt := by
  constructor
  · rfl
  · decide

/-- Claim C10 (amended): an unsupported shape leaves the state untouched
and a failed ping leaves opts and the script hash untouched, but a
failed script load has already overwritten opts; the script hash itself
changes only through a successful script load, which also makes DoInit
return no error. -/
theorem C10_doinit_state_on_error (env : InitEnv) (st : ClientState)
    (optObj : OptObj) (n : Nat) (e : String) :
    (DoInit env (OptObj.other n) st).1 = st ∧
    (DoInit env OptObj.nilOpt st).1 = st ∧
    (env.ping = Except.error e →
      (DoInit env optObj st).1.opts = st.opts ∧
      (DoInit env optObj st).1.shaHashID = st.shaHashID) ∧
    (env.ping = Except.ok () → env.scriptLoad = Except.error e →
      (DoInit env optObj st).1.shaHashID = st.shaHashID) ∧
    ((DoInit env optObj st).1.shaHashID ≠ st.shaHashID →
      env.scriptLoad = Except.ok ((DoInit env optObj st).1.shaHashID) ∧
      (DoInit env optObj st).2.1 = none) := by
  refine ⟨rfl, rfl, ?_, ?_, ?_⟩
  · intro hp
    cases optObj with
    | options m => simp [DoInit, doInitSupported, hp]
    | failoverOptions m => simp [DoInit, doInitSupported, hp]
    | clusterOptions m => simp [DoInit, doInitSupported, hp]
    | nilOpt => simp [DoInit]
    | other m => simp [DoInit]
  · intro hp hl
    cases optObj with
    | options m => simp [DoInit, doInitSupported, hp, hl, LoadLua]
    | failoverOptions m => simp [DoInit, doInitSupported, hp, hl, LoadLua]
    | clusterOptions m => simp [DoInit, doInitSupported, hp, hl, LoadLua]
    | nilOpt => simp [DoInit]
    | other m => simp [DoInit]
  · intro hsha
    have hsupp : ∀ (o : OptObj) (mk : InitAction),
        (doInitSupported env o mk st).1.shaHashID ≠ st.shaHashID →
        env.scriptLoad = Except.ok ((doInitSupported env o mk st).1.shaHashID) ∧
        (doInitSupported env o mk st).2.1 = none := by
      intro o mk hs
      rcases hp : env.ping with ep | u
      · rw [doInitSupported, hp] at hs
        simp at hs
      · rcases hl : env.scriptLoad with el | hh
        · rw [doInitSupported, hp] at hs
          simp [hl, LoadLua] at hs
        · cases u
          rw [doInitSupported, hp]
          simp [hl, LoadLua, SetShaHasID]
    cases optObj with
    | options m => exact hsupp _ _ hsha
    | failoverOptions m => exact hsupp _ _ hsha
    | clusterOptions m => exact hsupp _ _ hsha
    | nilOpt => simp [DoInit] at hsha
    | other m => simp [DoInit] at hsha

/-- Witness for C10_doinit_state_on_error at concrete inputs. -/
theorem C10_doinit_state_on_error_witness :
    ((DoInit ⟨Except.error "down", Except.ok "h1"⟩ (OptObj.options 0)
        ⟨none, OptObj.nilOpt, "old"⟩).1.opts = OptObj.nilOpt ∧
      (DoInit ⟨Except.error "down", Except.ok "h1"⟩ (OptObj.options 0)
        ⟨none, OptObj.nilOpt, "old"⟩).1.shaHashID = "old") ∧
    (DoInit ⟨Except.ok (), Except.error "boom"⟩ (OptObj.options 0)
        ⟨none, OptObj.nilOpt, "old"⟩).1.shaHashID = "old" ∧
    ((⟨Except.ok (), Except.ok "h1"⟩ : InitEnv).scriptLoad =
        Except.ok ((DoInit ⟨Except.ok (), Except.ok "h1"⟩ (OptObj.options 0)
          ⟨none, OptObj.nilOpt, "old"⟩).1.shaHashID) ∧
      (DoInit ⟨Except.ok (), Except.ok "h1"⟩ (OptObj.options 0)
        ⟨none, OptObj.nilOpt, "old"⟩).2.1 = none) := by
  refine ⟨?_, ?_, ?_⟩
  · exact (C10_doinit_state_on_error ⟨Except.error "down", Except.ok "h1"⟩
      ⟨none, OptObj.nilOpt, "old"⟩ (OptObj.options 0) 0 "down").2.2.1 rfl
  · exact (C10_doinit_state_on_error ⟨Except.ok (), Except.error "boom"⟩
      ⟨none, OptObj.nilOpt, "old"⟩ (OptObj.options 0) 0 "boom").2.2.2.1 rfl rfl
  · exact (C10_doinit_state_on_error ⟨Except.ok (), Except.ok "h1"⟩
      ⟨none, OptObj.nilOpt, "old"⟩ (OptObj.options 0) 0 "x").2.2.2.2 (by decide)

end RwLock
